import Mathlib

set_option autoImplicit false

/-!
Shallow embedding of `src/BillingBucketParser/lambda_function.py`.

The handler reads a CSV object from a billing bucket, scans the data rows in
order, stops at the first invalid record, and on an invalid record attempts a
copy to the error bucket followed by a delete of the original.  The Python
tail of the function is a `try/except/else` statement: the final `else:`
belongs to the `try`, not to `if error_found:` (Python's grammar does not
allow a `try` statement between an `if` suite and its `else`).  Consequently:

* when no error was found, `copy_source` is an unbound name, the `try` body
  raises `NameError`, the `except Exception` clause swallows it, the `else`
  is skipped, and the function falls through returning `None`;
* when an error was found and both the copy and the delete succeed, the
  `try`'s `else` runs and returns the 200 "No errors were found in the CSV
  file!" body;
* when the copy raises, control jumps to `except` and the delete statement
  never executes; the function returns `None`.

The embedding below reproduces these paths exactly.  Storage is an
association list from (bucket, key) to content; external storage failures of
the copy and delete calls are modelled by two oracle flags in
`StorageBehavior`.
-/

deriving instance DecidableEq for Except

namespace BillingBucketParser

/-! ### Model of `datetime.strptime(date, '%Y-%m-%d')`

CPython's `_strptime` compiles `%Y-%m-%d` to the anchored regular expression
`(?P<Y>\d\d\d\d)-(?P<m>1[0-2]|0[1-9]|[1-9])-(?P<d>3[01]|[12]\d|0[1-9]|[1-9])`
and requires the whole string to be consumed, then builds a `datetime`,
which additionally requires `1 <= year` and the day to exist in the month.
Since neither token may contain a dash, matching is equivalent to splitting
the string on every dash and checking the three tokens. -/

def digitVal (c : Char) : Nat := c.toNat - 48

def allDigits (cs : List Char) : Bool := cs.all Char.isDigit

def digitsVal (cs : List Char) : Nat := cs.foldl (fun a c => a * 10 + digitVal c) 0

/-- `%Y`: exactly four decimal digits. -/
def yearToken (cs : List Char) : Option Nat :=
  if cs.length == 4 && allDigits cs then some (digitsVal cs) else none

/-- `%m`: `1[0-2]|0[1-9]|[1-9]` — one digit `1`-`9`, or two digits with value 1..12. -/
def monthToken (cs : List Char) : Option Nat :=
  match cs with
  | [c] => if c.isDigit && c != '0' then some (digitVal c) else none
  | [c1, c2] =>
    if c1.isDigit && c2.isDigit && decide (1 ≤ digitsVal [c1, c2]) && decide (digitsVal [c1, c2] ≤ 12)
    then some (digitsVal [c1, c2]) else none
  | _ => none

/-- `%d`: `3[01]|[12]\d|0[1-9]|[1-9]` — one digit `1`-`9`, or two digits with value 1..31. -/
def dayToken (cs : List Char) : Option Nat :=
  match cs with
  | [c] => if c.isDigit && c != '0' then some (digitVal c) else none
  | [c1, c2] =>
    if c1.isDigit && c2.isDigit && decide (1 ≤ digitsVal [c1, c2]) && decide (digitsVal [c1, c2] ≤ 31)
    then some (digitsVal [c1, c2]) else none
  | _ => none

def isLeapYear (y : Nat) : Bool :=
  y % 4 == 0 && (y % 100 != 0 || y % 400 == 0)

def daysInMonth (y m : Nat) : Nat :=
  if m == 2 then (if isLeapYear y then 29 else 28)
  else if m == 4 || m == 6 || m == 9 || m == 11 then 30
  else 31

/-- Split a character list at every occurrence of `sep`, keeping empty parts,
like Python's `str.split(sep)`. -/
def splitOnCharAux (sep : Char) : List Char → List Char → List (List Char)
  | [], acc => [acc.reverse]
  | c :: cs, acc =>
    if c = sep then acc.reverse :: splitOnCharAux sep cs []
    else splitOnCharAux sep cs (c :: acc)

def splitDash (s : String) : List (List Char) := splitOnCharAux '-' s.toList []

/-- `True` exactly when `datetime.strptime(s, '%Y-%m-%d')` succeeds (ASCII digits). -/
def strptimeYmd (s : String) : Bool :=
  match splitDash s with
  | [ys, ms, ds] =>
    match yearToken ys, monthToken ms, dayToken ds with
    | some y, some m, some d => decide (1 ≤ y) && decide (d ≤ daysInMonth y m)
    | _, _, _ => false
  | _ => false

/-- Modelled from the spec's words, for comparison with `strptimeYmd`: the
canonical `YYYY-MM-DD` calendar format — four-digit year, zero-padded
two-digit month and day, naming a real calendar date. -/
def specCanonicalYmd (s : String) : Bool :=
  match splitDash s with
  | [ys, ms, ds] =>
    (ys.length == 4) && allDigits ys && (ms.length == 2) && allDigits ms &&
    (ds.length == 2) && allDigits ds &&
    decide (1 ≤ digitsVal ys) && decide (1 ≤ digitsVal ms) && decide (digitsVal ms ≤ 12) &&
    decide (1 ≤ digitsVal ds) && decide (digitsVal ds ≤ daysInMonth (digitsVal ys) (digitsVal ms))
  | _ => false

/-! ### Model of Python `float(s)` acceptance

`float()` strips surrounding whitespace, takes an optional sign, and accepts
`inf`, `infinity`, `nan` (case-insensitively) or a decimal literal
`digits [. [digits]] [exponent]` / `. digits [exponent]`, where each digit
run may contain single underscores between digits. -/

def isPyWhitespace (c : Char) : Bool :=
  c = ' ' || c = '\t' || c = '\n' || c = '\r' || c = '\x0b' || c = '\x0c'

def stripWs (cs : List Char) : List Char :=
  ((cs.dropWhile isPyWhitespace).reverse.dropWhile isPyWhitespace).reverse

def dropSign : List Char → List Char
  | '+' :: cs => cs
  | '-' :: cs => cs
  | cs => cs

/-- Consume the remainder of a digit run `(digit | '_' digit)*`, having already
seen one digit; stops (leaving the rest) at the first character that cannot
extend the run. -/
def chompMore : List Char → List Char
  | [] => []
  | [c] => if c.isDigit then [] else [c]
  | c :: d :: cs =>
    if c.isDigit then chompMore (d :: cs)
    else if c = '_' && d.isDigit then chompMore cs
    else c :: d :: cs

/-- Consume a nonempty digit run with optional internal underscores; `none` if
the input does not start with a digit. -/
def chompDigits : List Char → Option (List Char)
  | [] => none
  | c :: cs => if c.isDigit then some (chompMore cs) else none

def expTail (cs : List Char) : Bool :=
  match chompDigits (dropSign cs) with
  | some [] => true
  | _ => false

def expOrEnd : List Char → Bool
  | [] => true
  | c :: cs => (c == 'e' || c == 'E') && expTail cs

def numberBody (cs : List Char) : Bool :=
  match cs with
  | '.' :: rest =>
    match chompDigits rest with
    | some rest2 => expOrEnd rest2
    | none => false
  | _ =>
    match chompDigits cs with
    | some rest =>
      match rest with
      | '.' :: rest2 =>
        match chompDigits rest2 with
        | some rest3 => expOrEnd rest3
        | none => expOrEnd rest2
      | _ => expOrEnd rest
    | none => false

/-- `True` exactly when Python's `float(s)` succeeds (ASCII input). -/
def pyFloatAccepts (s : String) : Bool :=
  let cs := dropSign (stripWs s.toList)
  let lc := cs.map Char.toLower
  lc == ['i', 'n', 'f'] || lc == ['i', 'n', 'f', 'i', 'n', 'i', 't', 'y'] ||
  lc == ['n', 'a', 'n'] || numberBody cs

/-! ### File parsing: `splitlines` and the per-line comma split -/

/-- Model of `str.splitlines()` for the `\n`, `\r\n` and `\r` line breaks:
every break terminates a segment (even an empty one); a nonempty tail after
the last break is a final segment, and a trailing break adds nothing. -/
def splitlinesAux : List Char → List Char → List String
  | [], acc => if acc.isEmpty then [] else [String.mk acc.reverse]
  | '\r' :: '\n' :: rest, acc => String.mk acc.reverse :: splitlinesAux rest []
  | '\r' :: rest, acc => String.mk acc.reverse :: splitlinesAux rest []
  | '\n' :: rest, acc => String.mk acc.reverse :: splitlinesAux rest []
  | c :: rest, acc => splitlinesAux rest (c :: acc)

def pySplitlines (s : String) : List String := splitlinesAux s.toList []

/-- Model of `csv.reader(..., delimiter=',')` on one quote-free line: a blank
line yields the empty row, otherwise the line splits at every comma. -/
def parseCsvLine (line : String) : List String :=
  if line == "" then []
  else (splitOnCharAux ',' line.toList []).map (fun cs => String.mk cs)

/-! ### The record validator -/

def valid_product_lines : List String := ["Bakery", "Meat", "Dairy"]

def valid_currencies : List String := ["USD", "MXN", "CAD"]

inductive Reason where
  | unrecognisedProductLine
  | unrecognisedCurrency
  | badDateFormat
deriving DecidableEq

inductive Verdict where
  | valid
  | invalid (recordId : String) (reason : Reason) (offending : String)
deriving DecidableEq

/-- The unhandled Python exceptions the handler can raise, and the caught
storage-transition failures. -/
inductive Fault where
  | indexError (i : Nat)
  | valueErrorFloat (s : String)
  | noSuchKey (bucket key : String)
deriving DecidableEq

/-- `row[i]` in Python: the value, or an `IndexError`. -/
def getIdx (row : List String) (i : Nat) : Except Fault String :=
  match row[i]? with
  | some v => .ok v
  | none => .error (.indexError i)

/-- The three rule checks of the loop body, in source order: product line,
then currency, then date, short-circuiting at the first failure. -/
def checkRow (recordId product_line currency date : String) : Verdict :=
  if !(valid_product_lines.contains product_line) then
    .invalid recordId .unrecognisedProductLine product_line
  else if !(valid_currencies.contains currency) then
    .invalid recordId .unrecognisedCurrency currency
  else if !(strptimeYmd date) then
    .invalid recordId .badDateFormat date
  else .valid

/-- One iteration of the row loop: field extraction (`row[6]`, `row[4]`,
`row[7]`, `float(row[8])`) happens before any rule check, so a short row or a
non-float amount is a fault, not a verdict. -/
def processRow (row : List String) : Except Fault Verdict :=
  match getIdx row 6 with
  | .error f => .error f
  | .ok date =>
    match getIdx row 4 with
    | .error f => .error f
    | .ok product_line =>
      match getIdx row 7 with
      | .error f => .error f
      | .ok currency =>
        match getIdx row 8 with
        | .error f => .error f
        | .ok amount =>
          if pyFloatAccepts amount then
            .ok (checkRow (row.getD 0 "") product_line currency date)
          else .error (.valueErrorFloat amount)

/-- The row loop: scan in order, stop at the first invalid verdict (`break`
with `error_found = True`), propagate any fault; `.ok none` means the loop
finished with `error_found` still false. -/
def scanRows : List (List String) → Except Fault (Option Verdict)
  | [] => .ok none
  | row :: rest =>
    match processRow row with
    | .error f => .error f
    | .ok .valid => scanRows rest
    | .ok (.invalid i r o) => .ok (some (.invalid i r o))

/-- `data[1:]` parsed into records: drop the header line, comma-split the rest. -/
def rowsOf (content : String) : List (List String) :=
  ((pySplitlines content).drop 1).map parseCsvLine

/-! ### Storage and the handler -/

/-- S3 modelled as an association list from (bucket, key) to object content;
the most recent entry for a pair wins. -/
abbrev S3State := List ((String × String) × String)

def s3get : S3State → String → String → Option String
  | [], _, _ => none
  | ((b, k), v) :: rest, bucket, key =>
    if b == bucket && k == key then some v else s3get rest bucket key

def s3put (st : S3State) (bucket key content : String) : S3State :=
  ((bucket, key), content) :: st

def s3erase : S3State → String → String → S3State
  | [], _, _ => []
  | ((b, k), v) :: rest, bucket, key =>
    if b == bucket && k == key then s3erase rest bucket key
    else ((b, k), v) :: s3erase rest bucket key

/-- Oracle for the external storage's response to the copy and delete calls
issued on the quarantine path: `true` means the call raises. -/
structure StorageBehavior where
  copyFails : Bool
  deleteFails : Bool

structure HandlerResult where
  statusCode : Nat
  body : String
deriving DecidableEq

/-- The whole `lambda_handler`: read the object (an unhandled `NoSuchKey`
fault if absent), scan the rows (faults propagate unhandled), then the
`try/except/else` tail.  With `error_found` false the `try` raises
`NameError` on the unbound `copy_source`, which `except Exception` swallows,
so the function returns `None` and the state is untouched.  With
`error_found` true: a failing copy is caught before the delete statement runs
(`None`, state untouched); a failing delete is caught after the copy
(`None`, copy persisted); full success runs the `try`'s `else`, returning
status 200 with the "No errors were found in the CSV file!" body. -/
def lambda_handler (st : S3State) (beh : StorageBehavior)
    (error_bucket billing_bucket csv_file : String) :
    S3State × Except Fault (Option HandlerResult) :=
  match s3get st billing_bucket csv_file with
  | none => (st, .error (.noSuchKey billing_bucket csv_file))
  | some content =>
    match scanRows (rowsOf content) with
    | .error f => (st, .error f)
    | .ok none => (st, .ok none)
    | .ok (some _) =>
      if beh.copyFails then (st, .ok none)
      else
        let st1 := s3put st error_bucket csv_file content
        if beh.deleteFails then (st1, .ok none)
        else (s3erase st1 billing_bucket csv_file,
              .ok (some { statusCode := 200, body := "No errors were found in the CSV file!" }))

example : strptimeYmd "2023-01-02" = true := by decide
example : strptimeYmd "2023-02-30" = false := by decide
example : strptimeYmd "2023-2-3" = true := by decide
example : strptimeYmd "2024-02-29" = true := by decide
example : strptimeYmd "2023-02-29" = false := by decide
example : specCanonicalYmd "2023-2-3" = false := by decide
example : pyFloatAccepts "10.5" = true := by decide
example : pyFloatAccepts "abc" = false := by decide
example : pyFloatAccepts "1_0.5e+2" = true := by decide
example : pyFloatAccepts "1__0" = false := by decide
example : pySplitlines "h\na,b\r\nc\n" = ["h", "a,b", "c"] := by decide
example : parseCsvLine "1,a,,b" = ["1", "a", "", "b"] := by decide
example :
    processRow ["1", "a", "b", "c", "Meat", "x", "2023-01-02", "USD", "10.5"] =
      .ok .valid := by decide

/-! ### Storage lemmas -/

theorem s3get_put_same (st : S3State) (b k v : String) :
    s3get (s3put st b k v) b k = some v := by
  simp [s3put, s3get]

theorem s3get_put_diffBucket (st : S3State) (b k v b' k' : String) (h : b ≠ b') :
    s3get (s3put st b k v) b' k' = s3get st b' k' := by
  have hb : (b == b') = false := beq_eq_false_iff_ne.mpr h
  simp [s3put, s3get, hb]

theorem s3get_erase_same (st : S3State) (b k : String) :
    s3get (s3erase st b k) b k = none := by
  induction st with
  | nil => rfl
  | cons e rest ih =>
    obtain ⟨⟨eb, ek⟩, ev⟩ := e
    by_cases h : (eb == b && ek == k) = true
    · simp [s3erase, h, ih]
    · simp [s3erase, s3get, h, ih]

theorem s3get_erase_diffBucket (st : S3State) (b k b' k' : String) (h : b ≠ b') :
    s3get (s3erase st b k) b' k' = s3get st b' k' := by
  induction st with
  | nil => rfl
  | cons e rest ih =>
    obtain ⟨⟨eb, ek⟩, ev⟩ := e
    by_cases hh : (eb == b && ek == k) = true
    · have heb : eb = b := by
        have := (Bool.and_eq_true _ _).mp hh
        exact beq_iff_eq.mp this.1
      have : (eb == b') = false := beq_eq_false_iff_ne.mpr (heb ▸ h)
      simp [s3erase, hh, s3get, this, ih]
    · simp [s3erase, s3get, hh, ih]

/-! ### Scan lemmas -/

theorem scanRows_append_valid (pre rest : List (List String))
    (hpre : ∀ r ∈ pre, processRow r = .ok .valid) :
    scanRows (pre ++ rest) = scanRows rest := by
  induction pre with
  | nil => rfl
  | cons r pre ih =>
    have hr : processRow r = .ok .valid := hpre r (by simp)
    have ih' := ih (fun r hrr => hpre r (by simp [hrr]))
    simp [scanRows, hr, ih']

/-- The final state and return value of the handler on the fully successful
quarantine path. -/
theorem lambda_handler_quarantine (st : S3State) (beh : StorageBehavior)
    (error_bucket billing_bucket csv_file content : String) (v : Verdict)
    (hget : s3get st billing_bucket csv_file = some content)
    (hscan : scanRows (rowsOf content) = .ok (some v))
    (hc : beh.copyFails = false) (hd : beh.deleteFails = false) :
    lambda_handler st beh error_bucket billing_bucket csv_file =
      (s3erase (s3put st error_bucket csv_file content) billing_bucket csv_file,
       .ok (some { statusCode := 200, body := "No errors were found in the CSV file!" })) := by
  simp [lambda_handler, hget, hscan, hc, hd]

/-! ### Concrete files used by the closed theorems and witnesses -/

/-- A header line plus one row that passes every check. -/
def validCsv : String := "id,a,b,c,pl,x,date,cur,amt\n1,a,b,c,Meat,x,2023-01-02,USD,10.5"

/-- A header line plus one row with an unrecognised product line. -/
def badCsv : String := "id,a,b,c,pl,x,date,cur,amt\n1,a,b,c,Pork,x,2023-01-02,USD,10.5"

/-- A header line plus one row whose amount field is not a float. -/
def malformedCsv : String := "id,a,b,c,pl,x,date,cur,amt\n1,a,b,c,Meat,x,2023-01-02,USD,abc"

/-- A file holding only the header line. -/
def headerOnlyCsv : String := "id,a,b,c,pl,x,date,cur,amt\n"

/-- C1: the claim says the handler returns status 200 with the accepted
message when no record is invalid, and a quarantine/error message otherwise.
The code does neither: on a fully valid file the `try` raises `NameError` on
the unbound `copy_source`, the caught exception skips the `try`'s `else`,
and the handler returns `None`; after a successful quarantine the `try`'s
`else` runs and returns the 200 "No errors were found in the CSV file!"
body.  This theorem evaluates both paths at concrete inputs. -/
theorem c1_return_contract_violated :
    (lambda_handler [(("billing", "f.csv"), validCsv)] ⟨false, false⟩
        "errors" "billing" "f.csv").2 = .ok none ∧
    (lambda_handler [(("billing", "g.csv"), badCsv)] ⟨false, false⟩
        "errors" "billing" "g.csv").2 =
      .ok (some { statusCode := 200, body := "No errors were found in the CSV file!" }) := by
  decide

/-- C2: on the quarantine path, if the copy to the quarantine location
fails, the delete never executes: the handler state is unchanged and the
source object is still present. -/
theorem c2_copy_failure_blocks_delete (st : S3State) (beh : StorageBehavior)
    (error_bucket billing_bucket csv_file content : String) (v : Verdict)
    (hget : s3get st billing_bucket csv_file = some content)
    (hscan : scanRows (rowsOf content) = .ok (some v))
    (hcopy : beh.copyFails = true) :
    lambda_handler st beh error_bucket billing_bucket csv_file = (st, .ok none) ∧
    s3get st billing_bucket csv_file = some content := by
  refine ⟨?_, hget⟩
  simp [lambda_handler, hget, hscan, hcopy]

theorem c2_witness :
    lambda_handler [(("billing", "g.csv"), badCsv)] ⟨true, false⟩ "errors" "billing" "g.csv"
      = ([(("billing", "g.csv"), badCsv)], .ok none) ∧
    s3get [(("billing", "g.csv"), badCsv)] "billing" "g.csv" = some badCsv :=
  c2_copy_failure_blocks_delete [(("billing", "g.csv"), badCsv)] ⟨true, false⟩
    "errors" "billing" "g.csv" badCsv
    (.invalid "1" .unrecognisedProductLine "Pork") (by decide) (by decide) rfl

/-- C3: when the scan found an invalid record and the quarantine transition
succeeds, the source object is deleted from the source bucket and an
identical copy exists in the quarantine bucket under the same key. -/
theorem c3_quarantine_moves_file (st : S3State) (beh : StorageBehavior)
    (error_bucket billing_bucket csv_file content : String) (v : Verdict)
    (hget : s3get st billing_bucket csv_file = some content)
    (hscan : scanRows (rowsOf content) = .ok (some v))
    (hc : beh.copyFails = false) (hd : beh.deleteFails = false)
    (hbe : billing_bucket ≠ error_bucket) :
    s3get (lambda_handler st beh error_bucket billing_bucket csv_file).1
        error_bucket csv_file = some content ∧
    s3get (lambda_handler st beh error_bucket billing_bucket csv_file).1
        billing_bucket csv_file = none := by
  rw [lambda_handler_quarantine st beh error_bucket billing_bucket csv_file content v
    hget hscan hc hd]
  constructor
  · rw [s3get_erase_diffBucket _ _ _ _ _ hbe]
    exact s3get_put_same st error_bucket csv_file content
  · exact s3get_erase_same _ _ _

theorem c3_witness :
    s3get (lambda_handler [(("billing", "g.csv"), badCsv)] ⟨false, false⟩
        "errors" "billing" "g.csv").1 "errors" "g.csv" = some badCsv ∧
    s3get (lambda_handler [(("billing", "g.csv"), badCsv)] ⟨false, false⟩
        "errors" "billing" "g.csv").1 "billing" "g.csv" = none :=
  c3_quarantine_moves_file [(("billing", "g.csv"), badCsv)] ⟨false, false⟩
    "errors" "billing" "g.csv" badCsv
    (.invalid "1" .unrecognisedProductLine "Pork") (by decide) (by decide) rfl rfl
    (by decide)

/-- C6: when every scanned record is valid (`error_found` stays false), the
handler performs no storage mutation: the final state is exactly the initial
state (and the call returns `None`, the `NameError` on `copy_source` having
been swallowed). -/
theorem c6_valid_file_no_mutation (st : S3State) (beh : StorageBehavior)
    (error_bucket billing_bucket csv_file content : String)
    (hget : s3get st billing_bucket csv_file = some content)
    (hscan : scanRows (rowsOf content) = .ok none) :
    lambda_handler st beh error_bucket billing_bucket csv_file = (st, .ok none) := by
  simp [lambda_handler, hget, hscan]

theorem c6_witness :
    lambda_handler [(("billing", "f.csv"), validCsv)] ⟨false, false⟩
        "errors" "billing" "f.csv"
      = ([(("billing", "f.csv"), validCsv)], .ok none) :=
  c6_valid_file_no_mutation [(("billing", "f.csv"), validCsv)] ⟨false, false⟩
    "errors" "billing" "f.csv" validCsv (by decide) (by decide)

/-- C9: re-invoking the handler on the same source location after a fully
successful quarantine transition raises the unhandled `NoSuchKey` fault from
the storage read of the now-deleted object: the failure propagates (it is
not a silent success) and the state is unchanged. -/
theorem c9_reinvoke_after_quarantine_fails (st : S3State) (beh beh' : StorageBehavior)
    (error_bucket billing_bucket csv_file content : String) (v : Verdict)
    (hget : s3get st billing_bucket csv_file = some content)
    (hscan : scanRows (rowsOf content) = .ok (some v))
    (hc : beh.copyFails = false) (hd : beh.deleteFails = false) :
    lambda_handler (lambda_handler st beh error_bucket billing_bucket csv_file).1
        beh' error_bucket billing_bucket csv_file
      = ((lambda_handler st beh error_bucket billing_bucket csv_file).1,
         .error (.noSuchKey billing_bucket csv_file)) := by
  rw [lambda_handler_quarantine st beh error_bucket billing_bucket csv_file content v
    hget hscan hc hd]
  have hnone : s3get (s3erase (s3put st error_bucket csv_file content)
      billing_bucket csv_file) billing_bucket csv_file = none := s3get_erase_same _ _ _
  simp [lambda_handler, hnone]

theorem c9_witness :
    lambda_handler (lambda_handler [(("billing", "g.csv"), badCsv)] ⟨false, false⟩
        "errors" "billing" "g.csv").1 ⟨false, false⟩ "errors" "billing" "g.csv"
      = ((lambda_handler [(("billing", "g.csv"), badCsv)] ⟨false, false⟩
          "errors" "billing" "g.csv").1,
         .error (.noSuchKey "billing" "g.csv")) :=
  c9_reinvoke_after_quarantine_fails [(("billing", "g.csv"), badCsv)] ⟨false, false⟩
    ⟨false, false⟩ "errors" "billing" "g.csv" badCsv
    (.invalid "1" .unrecognisedProductLine "Pork") (by decide) (by decide) rfl rfl

/-- C10: a file holding only the header line leaves no data rows after
`data[1:]`, so the scan finds no invalid record and the handler performs no
storage mutation: the final state is exactly the initial state. -/
theorem c10_header_only_no_mutation (st : S3State) (beh : StorageBehavior)
    (error_bucket billing_bucket csv_file content : String)
    (hget : s3get st billing_bucket csv_file = some content)
    (hlines : (pySplitlines content).length ≤ 1) :
    scanRows (rowsOf content) = .ok none ∧
    lambda_handler st beh error_bucket billing_bucket csv_file = (st, .ok none) := by
  have hdrop : (pySplitlines content).drop 1 = [] := by
    apply List.eq_nil_of_length_eq_zero
    simp [List.length_drop]
    omega
  have hrows : rowsOf content = [] := by
    unfold rowsOf
    rw [hdrop]
    rfl
  have hscan : scanRows (rowsOf content) = .ok none := by rw [hrows]; rfl
  exact ⟨hscan, by simp [lambda_handler, hget, hscan]⟩

theorem c10_witness :
    scanRows (rowsOf headerOnlyCsv) = .ok none ∧
    lambda_handler [(("billing", "h.csv"), headerOnlyCsv)] ⟨false, false⟩
        "errors" "billing" "h.csv"
      = ([(("billing", "h.csv"), headerOnlyCsv)], .ok none) :=
  c10_header_only_no_mutation [(("billing", "h.csv"), headerOnlyCsv)] ⟨false, false⟩
    "errors" "billing" "h.csv" headerOnlyCsv (by decide) (by decide)

/-- C4: rows are scanned in order; at the first row with an invalid verdict
the scan stops with that verdict and `error_found` set — the rows after it
(`post`, universally quantified) are never examined and cannot influence the
result. -/
theorem c4_scan_stops_at_first_invalid (pre post : List (List String))
    (bad : List String) (i : String) (r : Reason) (o : String)
    (hpre : ∀ row ∈ pre, processRow row = .ok .valid)
    (hbad : processRow bad = .ok (.invalid i r o)) :
    scanRows (pre ++ bad :: post) = .ok (some (.invalid i r o)) := by
  rw [scanRows_append_valid pre (bad :: post) hpre]
  simp [scanRows, hbad]

theorem c4_witness :
    scanRows [["1", "a", "b", "c", "Meat", "x", "2023-01-02", "USD", "10.5"],
              ["2", "a", "b", "c", "Pork", "x", "2023-01-02", "USD", "10.5"],
              ["3"]]
      = .ok (some (.invalid "2" .unrecognisedProductLine "Pork")) :=
  c4_scan_stops_at_first_invalid
    [["1", "a", "b", "c", "Meat", "x", "2023-01-02", "USD", "10.5"]]
    [["3"]]
    ["2", "a", "b", "c", "Pork", "x", "2023-01-02", "USD", "10.5"]
    "2" .unrecognisedProductLine "Pork" (by decide) (by decide)

/-- A row with fewer than 9 fields makes one of the positional accesses
`row[6]`, `row[7]`, `row[8]` raise `IndexError`. -/
theorem processRow_error_short (row : List String) (h : row.length ≤ 8) :
    ∃ i, processRow row = .error (.indexError i) := by
  have h8 : row[8]? = none := List.getElem?_eq_none (by omega)
  cases h6 : row[6]? with
  | none => exact ⟨6, by simp [processRow, getIdx, h6]⟩
  | some d =>
    have hlen6 : 6 < row.length := by
      by_contra hc
      rw [List.getElem?_eq_none (by omega)] at h6
      exact Option.noConfusion h6
    have h4 : row[4]? = some row[4] := List.getElem?_eq_getElem (by omega)
    cases h7 : row[7]? with
    | none => exact ⟨7, by simp [processRow, getIdx, h6, h4, h7]⟩
    | some c => exact ⟨8, by simp [processRow, getIdx, h6, h4, h7, h8]⟩

/-- C5: a data row with fewer than 9 fields, or with an amount field Python's
`float` rejects, makes the invocation raise an unhandled fault (an
`IndexError` or `ValueError`, never the `NoSuchKey` read failure) before any
validation rule runs: no verdict is produced for the row and the handler
terminates fatally with the storage state untouched, so no quarantine
transition happens. -/
theorem c5_malformed_row_fatal (st : S3State) (beh : StorageBehavior)
    (error_bucket billing_bucket csv_file content : String)
    (pre post : List (List String)) (row : List String)
    (hget : s3get st billing_bucket csv_file = some content)
    (hrows : rowsOf content = pre ++ row :: post)
    (hpre : ∀ r ∈ pre, processRow r = .ok .valid)
    (hmal : row.length ≤ 8 ∨ ∃ a, row[8]? = some a ∧ pyFloatAccepts a = false) :
    ∃ f, (∀ b k, f ≠ .noSuchKey b k) ∧ processRow row = .error f ∧
      lambda_handler st beh error_bucket billing_bucket csv_file = (st, .error f) := by
  have hrow : ∃ f, (∀ b k, f ≠ Fault.noSuchKey b k) ∧ processRow row = .error f := by
    rcases hmal with hshort | ⟨a, ha, hfa⟩
    · obtain ⟨i, hi⟩ := processRow_error_short row hshort
      exact ⟨.indexError i, fun b k => Fault.noConfusion, hi⟩
    · have hlen : 8 < row.length := by
        by_contra hc
        rw [List.getElem?_eq_none (by omega)] at ha
        exact Option.noConfusion ha
      have h6 : row[6]? = some row[6] := List.getElem?_eq_getElem (by omega)
      have h4 : row[4]? = some row[4] := List.getElem?_eq_getElem (by omega)
      have h7 : row[7]? = some row[7] := List.getElem?_eq_getElem (by omega)
      refine ⟨.valueErrorFloat a, fun b k => Fault.noConfusion, ?_⟩
      simp [processRow, getIdx, h6, h4, h7, ha, hfa]
  obtain ⟨f, hnk, hf⟩ := hrow
  have hscan : scanRows (rowsOf content) = .error f := by
    rw [hrows, scanRows_append_valid pre (row :: post) hpre]
    simp [scanRows, hf]
  exact ⟨f, hnk, hf, by simp [lambda_handler, hget, hscan]⟩

theorem c5_witness :
    ∃ f, (∀ b k, f ≠ Fault.noSuchKey b k) ∧
      processRow ["1", "a", "b", "c", "Meat", "x", "2023-01-02", "USD", "abc"]
        = .error f ∧
      lambda_handler [(("billing", "m.csv"), malformedCsv)] ⟨false, false⟩
          "errors" "billing" "m.csv"
        = ([(("billing", "m.csv"), malformedCsv)], .error f) :=
  c5_malformed_row_fatal [(("billing", "m.csv"), malformedCsv)] ⟨false, false⟩
    "errors" "billing" "m.csv" malformedCsv
    [] [] ["1", "a", "b", "c", "Meat", "x", "2023-01-02", "USD", "abc"]
    (by decide) (by decide) (by simp)
    (Or.inr ⟨"abc", by decide, by decide⟩)

/-- C7: a well-formed record failing both the product-line rule and the
currency rule gets the verdict of the first check in source order: an
unrecognised product line with that product line as the offending value. -/
theorem c7_double_failure_reports_product_line (row : List String)
    (product_line currency date amount : String)
    (h6 : row[6]? = some date) (h4 : row[4]? = some product_line)
    (h7 : row[7]? = some currency) (h8 : row[8]? = some amount)
    (hfa : pyFloatAccepts amount = true)
    (hpl : product_line ∉ valid_product_lines)
    (hcur : currency ∉ valid_currencies) :
    processRow row
      = .ok (.invalid (row.getD 0 "") .unrecognisedProductLine product_line) := by
  simp [processRow, getIdx, h6, h4, h7, h8, hfa, checkRow, hpl]

theorem c7_witness :
    processRow ["7", "a", "b", "c", "Pork", "x", "2023-01-02", "GBP", "10.5"]
      = .ok (.invalid "7" .unrecognisedProductLine "Pork") :=
  c7_double_failure_reports_product_line
    ["7", "a", "b", "c", "Pork", "x", "2023-01-02", "GBP", "10.5"]
    "Pork" "GBP" "2023-01-02" "10.5" rfl rfl rfl rfl (by decide) (by decide) (by decide)

/-- C8 as stated is false: `datetime.strptime(date, '%Y-%m-%d')` also accepts
dates whose month or day is a single unpadded digit.  The string `2023-2-3`
is not in the canonical `YYYY-MM-DD` format, yet a record carrying it with a
valid product line and currency gets the verdict `Valid`, not
`Invalid{BadDateFormat}`. -/
theorem c8_counterexample :
    specCanonicalYmd "2023-2-3" = false ∧
    processRow ["1", "a", "b", "c", "Meat", "x", "2023-2-3", "USD", "10.5"]
      = .ok .valid := by
  decide

/-- C8 amended: for a well-formed record whose product line and currency are
valid, the date is accepted exactly when `strptime('%Y-%m-%d')` succeeds —
four-digit year at least 0001, month and day written with one or two digits
in range, naming a real calendar date (so `2023-02-30` is rejected, while
the unpadded `2023-2-3` is accepted); otherwise the verdict is
`Invalid{BadDateFormat}` with the date as the offending value. -/
theorem c8_date_gate_is_strptime (row : List String)
    (product_line currency date amount : String)
    (h6 : row[6]? = some date) (h4 : row[4]? = some product_line)
    (h7 : row[7]? = some currency) (h8 : row[8]? = some amount)
    (hfa : pyFloatAccepts amount = true)
    (hpl : product_line ∈ valid_product_lines)
    (hcur : currency ∈ valid_currencies) :
    processRow row
      = .ok (if strptimeYmd date then .valid
             else .invalid (row.getD 0 "") .badDateFormat date) := by
  by_cases hd : strptimeYmd date = true
  · simp [processRow, getIdx, h6, h4, h7, h8, hfa, checkRow, hpl, hcur, hd]
  · simp only [Bool.not_eq_true] at hd
    simp [processRow, getIdx, h6, h4, h7, h8, hfa, checkRow, hpl, hcur, hd]

theorem c8_witness :
    processRow ["1", "a", "b", "c", "Meat", "x", "2023-02-30", "USD", "10.5"]
      = .ok (.invalid "1" .badDateFormat "2023-02-30") ∧
    processRow ["2", "a", "b", "c", "Meat", "x", "2024-02-29", "USD", "10.5"]
      = .ok .valid :=
  ⟨c8_date_gate_is_strptime
      ["1", "a", "b", "c", "Meat", "x", "2023-02-30", "USD", "10.5"]
      "Meat" "USD" "2023-02-30" "10.5" rfl rfl rfl rfl (by decide) (by decide) (by decide),
   c8_date_gate_is_strptime
      ["2", "a", "b", "c", "Meat", "x", "2024-02-29", "USD", "10.5"]
      "Meat" "USD" "2024-02-29" "10.5" rfl rfl rfl rfl (by decide) (by decide) (by decide)⟩

end BillingBucketParser
